import Mathlib

/-!
Verification of the Caffe2 TSNE operator adapter (`src/tsne_op.cpp`).

The repository under verification registers the Barnes-Hut t-SNE algorithm as
a Caffe2 operator.  The file `src/tsne_op.cpp` is a thin adapter: it parses
operator arguments (with `OP_SINGLE_ARG` defaults), checks them and the input
tensor shapes with `CAFFE_ENFORCE`, resizes the output tensor, and forwards
everything to the external `TSNE::run` entry point.  The bhtsne core itself
and the Caffe2 framework are not part of the shipped sources, so those two
pieces are modelled from the specification, each in a definition whose doc
comment says exactly what is being modelled.

Machine integers in the adapter are modelled as `Int` (all values involved
are tiny tensor dimensions and user parameters, far from 32-bit overflow) and
C `double`/`float` values as `Rat` (the only float literals involved, 50 and
0.5, are exactly representable).
-/

set_option autoImplicit false

namespace TSNEVerify

/-- Element type tag of a Caffe2 tensor, as far as the adapter inspects it:
the adapter only ever asks `IsType<double>()`. -/
inductive DType where
  | double
  | other
deriving DecidableEq, Repr

/-- A CPU tensor as the adapter sees it: a shape (list of dimensions, so
`ndim` is its length), an element type tag, and the flat element data. -/
structure TensorCPU where
  shape : List Int
  dtype : DType
  data : List Rat
deriving DecidableEq, Repr

/-- `Tensor::ndim()` — the number of dimensions. -/
def TensorCPU.ndim (t : TensorCPU) : Nat :=
  t.shape.length

/-- `Tensor::dim32(i)` — the size of dimension `i`. -/
def TensorCPU.dim32 (t : TensorCPU) (i : Nat) : Int :=
  t.shape.getD i 0

/-- `Tensor::IsType<double>()` — whether the element type is double. -/
def TensorCPU.isDouble (t : TensorCPU) : Bool :=
  t.dtype == DType.double

/-- The arguments of an `OperatorDef` that the TSNE operator reads via
`OP_SINGLE_ARG(type, key, field, default)`: each is either present with a
value or absent (then the declared default is used).  There is no
`skip_random_init` argument: the adapter derives that flag from the input
count alone. -/
structure OperatorDef where
  argDims : Option Int
  argPerplexity : Option Rat
  argTheta : Option Rat
  argRandomSeed : Option Int
  argMaxIter : Option Int
deriving DecidableEq, Repr

/-- The member state of a constructed `TSNEOp` (`tsne_op.cpp`, lines
112-121): the five parameter fields. -/
structure TSNEOp where
  dims_ : Int
  perplexity_ : Rat
  theta_ : Rat
  random_seed_ : Int
  max_iter_ : Int
deriving DecidableEq, Repr

/-- The `CAFFE_ENFORCE` message of the constructor. -/
def msgDims : String :=
  "You should specify the number of output dimensions."

/-- The `TSNEOp` constructor (`tsne_op.cpp`, lines 40-57): reads each
argument with its `OP_SINGLE_ARG` default (dims 0, perplexity 50, theta 0.5,
random_seed 0, max_iter 1000), then `CAFFE_ENFORCE(dims_ > 0, ...)`.  A
failed enforce throws, modelled as `Except.error` with the enforce
message. -/
def TSNEOp.make (d : OperatorDef) : Except String TSNEOp :=
  let dims_ : Int := d.argDims.getD 0
  let perplexity_ : Rat := d.argPerplexity.getD 50
  let theta_ : Rat := d.argTheta.getD (1/2)
  let random_seed_ : Int := d.argRandomSeed.getD 0
  let max_iter_ : Int := d.argMaxIter.getD 1000
  if dims_ > 0 then
    Except.ok ⟨dims_, perplexity_, theta_, random_seed_, max_iter_⟩
  else
    Except.error msgDims

/-- The full argument list of one call to `TSNE::run`, in the order the
adapter passes them (`tsne_op.cpp`, lines 91-106). -/
structure RunCall where
  X : List Rat
  N : Int
  D : Int
  Yin : List Rat
  no_dims : Int
  perplexity : Rat
  theta : Rat
  rand_seed : Int
  skip_random_init : Bool
  max_iter : Int
deriving DecidableEq, Repr

/-- The error signal of the modelled core. -/
inductive TSNEError where
  | invalidConfig (msg : String)
deriving DecidableEq, Repr

/-- The fail-fast message of the modelled core perplexity check. -/
def msgPerplexity : String :=
  "Perplexity too large for the number of data points."

/-- Modelled from the spec: the body of the Barnes-Hut t-SNE embedding
computation (affinity estimation, spatial index, gradient descent) performed
by `TSNE::run` once its configuration check passes.  That code lives in the
bhtsne subfolder of the repository, which is not among the shipped sources,
and none of the claims under verification depends on the numeric values it
produces — only on the fact (spec section 6) that it fills the `N * no_dims`
output buffer, starting from the caller-provided buffer when
`skip_random_init` is set.  It is therefore modelled as a fixed deterministic
placeholder of the right length. -/
def coreEmbed (Yin : List Rat) (len : Nat) (skip : Bool) : List Rat :=
  if skip then (Yin ++ List.replicate len 0).take len
  else List.replicate len 0

/-- Modelled from the spec: the `TSNE::run` entry point of the bhtsne core
(declared in `tsne.h`; its implementation is in the bhtsne subfolder of the
repository, not among the shipped sources).  Spec sections 4.1, 7 and 8: the
core fails fast with an invalid-configuration signal when N is too small
relative to perplexity — fewer than ~3 × perplexity usable neighbors, a
point having `N - 1` usable neighbors — and otherwise runs `max_iter`
iterations to completion, writing the `N`-by-`no_dims` output and reading the
input `X` read-only (spec section 3).  The fail-fast abort of the whole
operation is modelled as `Except.error`; the filled output buffer as
`Except.ok`.  The check `N - 1 < 3 * perplexity` over exact rationals is
written on the numerator and denominator of `perplexity` (the lemma
`run_fails_iff` below shows it equals the rational inequality). -/
def TSNE.run (X : List Rat) (N : Int) (D : Int) (Y : List Rat) (no_dims : Int)
    (perplexity : Rat) (theta : Rat) (rand_seed : Int)
    (skip_random_init : Bool) (max_iter : Int) : Except TSNEError (List Rat) :=
  if (N - 1) * (perplexity.den : Int) < 3 * perplexity.num then
    Except.error (TSNEError.invalidConfig msgPerplexity)
  else
    Except.ok (coreEmbed Y (N.toNat * no_dims.toNat) skip_random_init)

/-- Outcome of one `RunOnDevice` invocation:
a `CAFFE_ENFORCE` failure (exception thrown before the core is reached,
carrying the enforce message), an abort raised inside the core
(invalid-configuration fail-fast, carrying the argument list that was
passed), or a normal return (the boolean return value, the output tensor,
and the argument list passed to the core). -/
inductive RunOutcome where
  | enforceFailed (msg : String)
  | coreAborted (call : RunCall) (msg : String)
  | ok (result : Bool) (output : TensorCPU) (call : RunCall)
deriving DecidableEq, Repr

/-- Whether the outcome is a normal return. -/
def RunOutcome.isOk : RunOutcome → Bool
  | .ok _ _ _ => true
  | _ => false

/-- Whether the outcome is the in-core invalid-configuration abort. -/
def RunOutcome.isCoreAbort : RunOutcome → Bool
  | .coreAborted _ _ => true
  | _ => false

/-- Whether the outcome is a `CAFFE_ENFORCE` failure in the adapter. -/
def RunOutcome.isEnforceFailed : RunOutcome → Bool
  | .enforceFailed _ => true
  | _ => false

/-- The argument list passed to `TSNE::run`, when the invocation reached
that call. -/
def RunOutcome.callOf : RunOutcome → Option RunCall
  | .coreAborted c _ => some c
  | .ok _ _ c => some c
  | _ => none

/-- The shape of the output tensor, when the invocation returned. -/
def RunOutcome.outShape : RunOutcome → Option (List Int)
  | .ok _ Y _ => some Y.shape
  | _ => none

/-- The `CAFFE_ENFORCE` messages of `RunOnDevice`. -/
def msgInputNdim : String :=
  "TSNE expects a 2-dimensional tensor as input."

/-- The second `CAFFE_ENFORCE` message of `RunOnDevice`. -/
def msgInputType : String :=
  "TSNE expects the input to be of data type double."

/-- Enforce message for `init.ndim() == 2`. -/
def msgInitNdim : String :=
  "init.ndim() == 2"

/-- Enforce message for `init.dim32(0) == N`. -/
def msgInitDim0 : String :=
  "init.dim32(0) == N"

/-- Enforce message for `init.dim32(1) == dims_`. -/
def msgInitDim1 : String :=
  "init.dim32(1) == dims_"

/-- Enforce message for the init element type check. -/
def msgInitType : String :=
  "init.IsType double"

/-- The tail of `TSNEOp::RunOnDevice` after every `CAFFE_ENFORCE` has
passed (`tsne_op.cpp`, lines 85-109): the output tensor is resized to
`(N, dims_)` and `TSNE::run` is called on the input data, the output
buffer (the second input data when present, else the fresh buffer), and
the five stored parameters; on a normal core return the function returns
`true` together with the output tensor. -/
def TSNEOp.callCore (op : TSNEOp) (X : TensorCPU)
    (initArg : Option TensorCPU) : RunOutcome :=
  let skip_random_init := initArg.isSome
  let N : Int := X.dim32 0
  let D : Int := X.dim32 1
  let Yin : List Rat :=
    match initArg with
    | some i => i.data
    | none => []
  let call : RunCall :=
    ⟨X.data, N, D, Yin, op.dims_, op.perplexity_, op.theta_,
      op.random_seed_, skip_random_init, op.max_iter_⟩
  match TSNE.run X.data N D Yin op.dims_ op.perplexity_ op.theta_
      op.random_seed_ skip_random_init op.max_iter_ with
  | Except.error (TSNEError.invalidConfig msg) =>
    RunOutcome.coreAborted call msg
  | Except.ok outData =>
    RunOutcome.ok true ⟨[N, op.dims_], DType.double, outData⟩ call

/-- `TSNEOp::RunOnDevice` (`tsne_op.cpp`, lines 61-110).  The operator takes
one or two inputs (schema `NumInputs(1, 2)`), modelled as the first input
`X` plus an optional second input `initArg`.  Steps, in source order:
`skip_random_init` is set from the input count; `X` must be 2-dimensional of
type double; with a second input, that input must be 2-dimensional of shape
`(N, dims_)` and type double; then the tail `callCore` resizes the output
and calls the core. -/
def TSNEOp.RunOnDevice (op : TSNEOp) (X : TensorCPU)
    (initArg : Option TensorCPU) : RunOutcome :=
  if X.ndim = 2 then
    if X.isDouble then
      match initArg with
      | none => op.callCore X none
      | some i =>
        if i.ndim = 2 then
          if i.dim32 0 = X.dim32 0 then
            if i.dim32 1 = op.dims_ then
              if i.isDouble then op.callCore X (some i)
              else RunOutcome.enforceFailed msgInitType
            else RunOutcome.enforceFailed msgInitDim1
          else RunOutcome.enforceFailed msgInitDim0
        else RunOutcome.enforceFailed msgInitNdim
    else RunOutcome.enforceFailed msgInputType
  else RunOutcome.enforceFailed msgInputNdim

/-- The shape/type precondition stated in the words of the spec (sections 6
and 7) and of claim C2: the first input is a 2-dimensional tensor with
element type double, and, when a second input is supplied, that input is
2-dimensional of shape `(N, dims)` with element type double.  This
definition follows the wording of the specification; the theorem for claim
C2 compares it against the `CAFFE_ENFORCE` checks of `RunOnDevice`. -/
def specPrecondition (op : TSNEOp) (X : TensorCPU)
    (initArg : Option TensorCPU) : Bool :=
  (X.ndim == 2) && X.isDouble &&
  (match initArg with
   | none => true
   | some i =>
     (i.ndim == 2) && (i.dim32 0 == X.dim32 0) &&
       (i.dim32 1 == op.dims_) && i.isDouble)

/-- An operator schema, restricted to the facets the TSNE registration uses
(`tsne_op.cpp`, lines 131-140): the input-count range, the output count, and
the list of enforced in-place (input, output) pairs. -/
structure OperatorSchema where
  minInputs : Nat
  maxInputs : Nat
  numOutputs : Nat
  inplaceEnforced : List (Nat × Nat)
deriving DecidableEq, Repr

/-- The registered TSNE schema: `NumInputs(1, 2)`, `NumOutputs(1)`, and the
enforced in-place pair of input 1 with output 0. -/
def TSNESchema : OperatorSchema :=
  ⟨1, 2, 1, [(1, 0)]⟩

/-- Placeholder blob name used for out-of-range list reads. -/
def defaultBlob : String :=
  ""

/-- Modelled from the spec: the Caffe2 framework check that an invocation
(a binding of blob names to operator inputs and outputs) conforms to the
registered schema.  The framework is an external collaborator of the
repository (spec sections 1 and 9) and its sources are not part of the
shipped code.  An invocation is valid when the input count lies in the
declared range, the output count matches, and an input blob and an output
blob are the same blob exactly where the schema declares an enforced
in-place pair (spec section 9: in-place output aliasing — the optional
second input sharing storage with the output — is a buffer-ownership
convention enforced by the host framework). -/
def OperatorSchema.verifies (s : OperatorSchema)
    (inBlobs outBlobs : List String) : Bool :=
  decide (s.minInputs ≤ inBlobs.length) &&
  decide (inBlobs.length ≤ s.maxInputs) &&
  decide (outBlobs.length = s.numOutputs) &&
  ((List.range inBlobs.length).all fun i =>
    (List.range outBlobs.length).all fun o =>
      (inBlobs.getD i defaultBlob == outBlobs.getD o defaultBlob) ==
        decide ((i, o) ∈ s.inplaceEnforced))

/-- A Caffe2 workspace maps blob names to the tensors they hold. -/
abbrev Workspace := String → Option TensorCPU

/-- Enforce message for input blobs that are not bound in the workspace. -/
def msgBadInputs : String :=
  "input blobs not bound in the workspace"

/-- One invocation of the operator against a workspace: the bound input
blobs are read, `RunOnDevice` executes, and on a normal return the output
tensor is stored under the output blob name.  Input counts outside the
schema range or unbound blobs are modelled as a failure before the operator
body runs. -/
def runOnWorkspace (op : TSNEOp) (inBlobs : List String) (outBlob : String)
    (ws : Workspace) : RunOutcome × Workspace :=
  let fetched : Option (TensorCPU × Option TensorCPU) :=
    match inBlobs with
    | [x] =>
      match ws x with
      | some tx => some (tx, none)
      | none => none
    | [x, i] =>
      match ws x, ws i with
      | some tx, some ti => some (tx, some ti)
      | _, _ => none
    | _ => none
  match fetched with
  | none => (RunOutcome.enforceFailed msgBadInputs, ws)
  | some (X, initArg) =>
    match op.RunOnDevice X initArg with
    | RunOutcome.ok r Y c =>
      (RunOutcome.ok r Y c, fun n => if n = outBlob then some Y else ws n)
    | out => (out, ws)

/-- The argument record that `callCore` passes to the core: the input data,
its two dimensions, the output buffer (second input data when present), and
the five stored operator parameters, with `skip_random_init` set from the
input count. -/
def mkCall (op : TSNEOp) (X : TensorCPU) (initArg : Option TensorCPU) : RunCall :=
  ⟨X.data, X.dim32 0, X.dim32 1,
    (match initArg with | some i => i.data | none => []),
    op.dims_, op.perplexity_, op.theta_, op.random_seed_,
    initArg.isSome, op.max_iter_⟩

/-- Example operator definition: only dims given, set to 2. -/
def dEx : OperatorDef := ⟨some 2, none, none, none, none⟩

/-- Example operator definition with every argument omitted. -/
def dNone : OperatorDef := ⟨none, none, none, none, none⟩

/-- Example operator definition with out-of-range values: perplexity -3,
theta 7 (outside [0,1]), random_seed -5, max_iter -1. -/
def dWild : OperatorDef := ⟨some 1, some (-3), some 7, some (-5), some (-1)⟩

/-- The operator built from `dEx`. -/
def opEx : TSNEOp := ⟨2, 50, 1/2, 0, 1000⟩

/-- An operator with perplexity 1, small enough for a 4-point input. -/
def opSmall : TSNEOp := ⟨2, 1, 1/2, 0, 1000⟩

/-- The operator built from `dWild`. -/
def opWild : TSNEOp := ⟨1, -3, 7, -5, -1⟩

/-- Example input tensor: 4 points of dimension 3. -/
def tenX : TensorCPU := ⟨[4, 3], DType.double, List.replicate 12 0⟩

/-- Example initialization tensor of shape (4, 2). -/
def tenInit : TensorCPU := ⟨[4, 2], DType.double, List.replicate 8 0⟩

/-- A malformed input tensor: 1-dimensional. -/
def tenBad : TensorCPU := ⟨[12], DType.double, List.replicate 12 0⟩

/-- The output tensor produced by `opSmall` on `tenX`. -/
def outEx : TensorCPU := ⟨[4, 2], DType.double, List.replicate 8 0⟩

/-- The core call made by `opSmall` on `tenX` with one input. -/
def callEx : RunCall := ⟨List.replicate 12 0, 4, 3, [], 2, 1, 1/2, 0, false, 1000⟩

/-- The core call made by `opSmall` on `tenX` with a second input `tenInit`. -/
def callEx2 : RunCall :=
  ⟨List.replicate 12 0, 4, 3, List.replicate 8 0, 2, 1, 1/2, 0, true, 1000⟩

/-- The core call made by `opEx` (default parameters) on `tenX`. -/
def callEx50 : RunCall := ⟨List.replicate 12 0, 4, 3, [], 2, 50, 1/2, 0, false, 1000⟩

/-- The core call made by `opWild` on `tenX`. -/
def callWild : RunCall := ⟨List.replicate 12 0, 4, 3, [], 1, -3, 7, -5, false, -1⟩

/-- Example blob name for the input. -/
def nameX : String := "x"

/-- Example blob name for the in-place second input and output. -/
def nameY : String := "y"

/-- Example workspace binding `nameX` to `tenX` and `nameY` to `tenInit`. -/
def wsEx : Workspace := fun n =>
  if n = nameX then some tenX else if n = nameY then some tenInit else none


/-- The integer form of the perplexity check in `TSNE.run` is exactly the
rational inequality `N - 1 < 3 * perplexity`. -/
theorem run_fails_iff (N : Int) (p : Rat) :
    ((N - 1) * (p.den : Int) < 3 * p.num) ↔ ((N : Rat) - 1 < 3 * p) := by
  have hden : (0 : Rat) < (p.den : Rat) := by exact_mod_cast p.pos
  constructor
  · intro h
    have h2 : ((N : Rat) - 1) * (p.den : Rat) < 3 * (p.num : Rat) := by
      exact_mod_cast h
    have h3 : (N : Rat) - 1 < 3 * (p.num : Rat) / (p.den : Rat) := by
      rw [lt_div_iff₀ hden]
      exact h2
    rwa [mul_div_assoc, Rat.num_div_den] at h3
  · intro h
    have h3 : (N : Rat) - 1 < 3 * (p.num : Rat) / (p.den : Rat) := by
      rwa [mul_div_assoc, Rat.num_div_den]
    have h2 := (lt_div_iff₀ hden).mp h3
    exact_mod_cast h2

/-- Whatever the core decides, `callCore` records exactly the argument list
`mkCall` as the call made to `TSNE::run`. -/
theorem callCore_callOf (op : TSNEOp) (X : TensorCPU) (initArg : Option TensorCPU) :
    (op.callCore X initArg).callOf = some (mkCall op X initArg) := by
  simp only [TSNEOp.callCore, mkCall]
  split <;> rfl

/-- `callCore` never produces an enforce failure: every `CAFFE_ENFORCE`
happens before it. -/
theorem callCore_not_enforce (op : TSNEOp) (X : TensorCPU) (initArg : Option TensorCPU) :
    (op.callCore X initArg).isEnforceFailed = false := by
  simp only [TSNEOp.callCore]
  split <;> rfl

/-- When the spec precondition holds, `RunOnDevice` is exactly its
post-enforce tail `callCore`. -/
theorem runOnDevice_of_pre (op : TSNEOp) (X : TensorCPU) (initArg : Option TensorCPU)
    (hpre : specPrecondition op X initArg = true) :
    op.RunOnDevice X initArg = op.callCore X initArg := by
  cases initArg with
  | none =>
    simp only [specPrecondition, Bool.and_eq_true, beq_iff_eq] at hpre
    simp [TSNEOp.RunOnDevice, hpre.1, hpre.2]
  | some i =>
    simp only [specPrecondition, Bool.and_eq_true, beq_iff_eq] at hpre
    simp [TSNEOp.RunOnDevice, hpre.1.1, hpre.1.2, hpre.2.1.1.1, hpre.2.1.1.2,
      hpre.2.1.2, hpre.2.2]

/-- When the spec precondition fails, `RunOnDevice` is an enforce failure. -/
theorem runOnDevice_of_not_pre (op : TSNEOp) (X : TensorCPU) (initArg : Option TensorCPU)
    (hpre : specPrecondition op X initArg = false) :
    (op.RunOnDevice X initArg).isEnforceFailed = true := by
  cases initArg with
  | none =>
    simp only [specPrecondition, Bool.and_eq_false_iff, beq_eq_false_iff_ne] at hpre
    simp only [TSNEOp.RunOnDevice]
    repeat' split
    all_goals simp_all [RunOutcome.isEnforceFailed, TensorCPU.isDouble]
  | some i =>
    simp only [specPrecondition, Bool.and_eq_false_iff, beq_eq_false_iff_ne] at hpre
    simp only [TSNEOp.RunOnDevice]
    repeat' split
    all_goals simp_all [RunOutcome.isEnforceFailed, TensorCPU.isDouble]

/-- Every `RunOnDevice` invocation is either an enforce failure or its
post-enforce tail `callCore`. -/
theorem runOnDevice_cases (op : TSNEOp) (X : TensorCPU) (initArg : Option TensorCPU) :
    (∃ msg, op.RunOnDevice X initArg = RunOutcome.enforceFailed msg) ∨
    op.RunOnDevice X initArg = op.callCore X initArg := by
  simp only [TSNEOp.RunOnDevice]
  repeat' split
  all_goals simp

/-- Any call record `RunOnDevice` hands to the core is `mkCall`. -/
theorem callOf_eq (op : TSNEOp) (X : TensorCPU) (initArg : Option TensorCPU)
    (c : RunCall) (h : (op.RunOnDevice X initArg).callOf = some c) :
    c = mkCall op X initArg := by
  rcases runOnDevice_cases op X initArg with ⟨msg, heq⟩ | heq
  · rw [heq] at h
    cases h
  · rw [heq, callCore_callOf] at h
    exact (Option.some_inj.mp h).symm

/-- C1: for every invocation of the TSNE operator that passes its
precondition checks (modelled: every invocation on which `RunOnDevice`
returns normally), the output tensor has exactly N rows and `dims` columns,
where N is the first dimension of the input tensor and `dims` is the stored
parameter. -/
theorem tsne_output_shape (op : TSNEOp) (X : TensorCPU) (initArg : Option TensorCPU)
    (r : Bool) (Y : TensorCPU) (c : RunCall)
    (h : op.RunOnDevice X initArg = RunOutcome.ok r Y c) :
    Y.shape = [X.dim32 0, op.dims_] := by
  rcases runOnDevice_cases op X initArg with ⟨msg, heq⟩ | heq
  · rw [heq] at h
    cases h
  · rw [heq] at h
    simp only [TSNEOp.callCore] at h
    split at h
    · cases h
    · obtain ⟨h1, h2, h3⟩ := RunOutcome.ok.inj h
      rw [← h2]

/-- Witness for C1: a concrete invocation returning normally, with output
shape (4, 2) for a (4, 3) input and dims 2. -/
theorem tsne_output_shape_witness :
    opSmall.RunOnDevice tenX none = RunOutcome.ok true outEx callEx ∧
    outEx.shape = [4, 2] :=
  ⟨by rfl, tsne_output_shape opSmall tenX none true outEx callEx (by rfl)⟩

/-- C2: `RunOnDevice` aborts with a fatal configuration error (an enforce
failure) if and only if the shape/type precondition fails — the first input
is not 2-dimensional of type double, or a supplied second input is not
2-dimensional of shape (N, dims) with type double — and an invocation that
aborts this way never reaches the call to `TSNE::run` (no call record
exists). -/
theorem tsne_enforce_iff (op : TSNEOp) (X : TensorCPU) (initArg : Option TensorCPU) :
    ((op.RunOnDevice X initArg).isEnforceFailed = true ↔
      specPrecondition op X initArg = false) ∧
    ((op.RunOnDevice X initArg).isEnforceFailed = true →
      (op.RunOnDevice X initArg).callOf = none) := by
  refine ⟨⟨?_, ?_⟩, ?_⟩
  · intro h
    cases hpre : specPrecondition op X initArg with
    | false => rfl
    | true =>
      rw [runOnDevice_of_pre op X initArg hpre, callCore_not_enforce] at h
      cases h
  · exact runOnDevice_of_not_pre op X initArg
  · intro h
    rcases runOnDevice_cases op X initArg with ⟨msg, heq⟩ | heq
    · rw [heq]
      rfl
    · rw [heq, callCore_not_enforce] at h
      cases h

/-- Witness for C2: a 1-dimensional input makes the invocation fail its
enforce checks and never reach the core call. -/
theorem tsne_enforce_iff_witness :
    (opSmall.RunOnDevice tenBad none).isEnforceFailed = true ∧
    (opSmall.RunOnDevice tenBad none).callOf = none :=
  ⟨by decide, (tsne_enforce_iff opSmall tenBad none).2 (by decide)⟩

/-- C3: construction fails exactly when the dims argument is omitted (the
declared default 0 then fails the check) or not positive, and every
successfully constructed operator has dims > 0. -/
theorem tsne_make_requires_dims (d : OperatorDef) :
    ((TSNEOp.make d).isOk = false ↔ d.argDims.getD 0 ≤ 0) ∧
    ∀ op, TSNEOp.make d = Except.ok op → 0 < op.dims_ := by
  constructor
  · simp only [TSNEOp.make]
    split
    · simp_all [Except.isOk, Except.toBool]
    · simp_all [Except.isOk, Except.toBool]
  · intro op h
    simp only [TSNEOp.make] at h
    split at h
    · obtain ⟨rfl⟩ := Except.ok.inj h
      simp_all
    · cases h

/-- Witness for C3: construction with dims omitted fails; the operator
built with dims 2 has positive dims. -/
theorem tsne_make_requires_dims_witness :
    (TSNEOp.make dNone).isOk = false ∧ 0 < opEx.dims_ :=
  ⟨(tsne_make_requires_dims dNone).1.mpr (by decide),
   (tsne_make_requires_dims dEx).2 opEx (by rfl)⟩

/-- C4 helper: perplexity at least N/3 makes the integer form of the core
check fire. -/
theorem run_fail_lt (op : TSNEOp) (X : TensorCPU)
    (hperp : (X.dim32 0 : Rat) / 3 ≤ op.perplexity_) :
    (X.dim32 0 - 1) * (op.perplexity_.den : Int) < 3 * op.perplexity_.num := by
  have hlt : ((X.dim32 0 : Int) : Rat) - 1 < 3 * op.perplexity_ := by linarith
  exact (run_fails_iff (X.dim32 0) op.perplexity_).mpr hlt

/-- C4 helper: when the core check fires, `callCore` is the fail-fast
abort. -/
theorem callCore_abort_of_lt (op : TSNEOp) (X : TensorCPU) (initArg : Option TensorCPU)
    (h : (X.dim32 0 - 1) * (op.perplexity_.den : Int) < 3 * op.perplexity_.num) :
    (op.callCore X initArg).isCoreAbort = true := by
  simp only [TSNEOp.callCore, TSNE.run]
  rw [if_pos h]
  rfl

/-- C4: an invocation with perplexity at least N/3 never runs the embedding
computation to completion; once the shape/type checks pass it fails fast
with the invalid-configuration signal of the core. -/
theorem tsne_perplexity_fail_fast (op : TSNEOp) (X : TensorCPU)
    (initArg : Option TensorCPU)
    (hperp : (X.dim32 0 : Rat) / 3 ≤ op.perplexity_) :
    (op.RunOnDevice X initArg).isOk = false ∧
    (specPrecondition op X initArg = true →
      (op.RunOnDevice X initArg).isCoreAbort = true) := by
  have habort : ∀ a, (op.callCore X a).isCoreAbort = true :=
    fun a => callCore_abort_of_lt op X a (run_fail_lt op X hperp)
  constructor
  · rcases runOnDevice_cases op X initArg with ⟨msg, heq⟩ | heq
    · rw [heq]
      rfl
    · rw [heq]
      have := habort initArg
      revert this
      cases op.callCore X initArg <;> simp [RunOutcome.isCoreAbort, RunOutcome.isOk]
  · intro hpre
    rw [runOnDevice_of_pre op X initArg hpre]
    exact habort initArg

/-- Witness for C4: with 4 points and default perplexity 50, the invocation
aborts inside the core instead of running. -/
theorem tsne_perplexity_fail_fast_witness :
    (opEx.RunOnDevice tenX none).isOk = false ∧
    (opEx.RunOnDevice tenX none).isCoreAbort = true :=
  ⟨(tsne_perplexity_fail_fast opEx tenX none
      (by show ((4 : Int) : Rat) / 3 ≤ (50 : Rat); norm_num)).1,
   (tsne_perplexity_fail_fast opEx tenX none
      (by show ((4 : Int) : Rat) / 3 ≤ (50 : Rat); norm_num)).2 (by decide)⟩

/-- C5: the `skip_random_init` flag passed to the core is exactly the
presence of a second input; there is no separately settable flag (the
modelled `OperatorDef` has no such argument, and the call record is fully
determined by `mkCall`). -/
theorem tsne_skip_from_input_count (op : TSNEOp) (X : TensorCPU)
    (initArg : Option TensorCPU) (c : RunCall)
    (h : (op.RunOnDevice X initArg).callOf = some c) :
    c.skip_random_init = initArg.isSome := by
  rw [callOf_eq op X initArg c h]
  rfl

/-- Witness for C5: with a second input, the core receives
skip_random_init = true. -/
theorem tsne_skip_from_input_count_witness :
    (opSmall.RunOnDevice tenX (some tenInit)).callOf = some callEx2 ∧
    callEx2.skip_random_init = (some tenInit).isSome :=
  ⟨by rfl, tsne_skip_from_input_count opSmall tenX (some tenInit) callEx2 (by rfl)⟩

/-- C6: an operator constructed with only dims given forwards exactly the
defaults perplexity = 50, theta = 0.5, random_seed = 0 and max_iter = 1000
in every call to the core. -/
theorem tsne_run_defaults (dims : Int) (op : TSNEOp) (X : TensorCPU)
    (initArg : Option TensorCPU) (c : RunCall)
    (h1 : TSNEOp.make ⟨some dims, none, none, none, none⟩ = Except.ok op)
    (h2 : (op.RunOnDevice X initArg).callOf = some c) :
    c.perplexity = 50 ∧ c.theta = 1/2 ∧ c.rand_seed = 0 ∧ c.max_iter = 1000 := by
  have hc := callOf_eq op X initArg c h2
  subst hc
  simp only [TSNEOp.make] at h1
  split at h1
  · have hop := Except.ok.inj h1
    rw [← hop]
    exact ⟨rfl, rfl, rfl, rfl⟩
  · cases h1

/-- Witness for C6: the operator built from `dEx` passes exactly the four
default values to the core. -/
theorem tsne_run_defaults_witness :
    callEx50.perplexity = 50 ∧ callEx50.theta = 1/2 ∧ callEx50.rand_seed = 0 ∧
      callEx50.max_iter = 1000 :=
  tsne_run_defaults 2 opEx tenX none callEx50 (by rfl) (by rfl)

/-- C7: in every two-input invocation the registered schema accepts, the
blob bound to the second input is the blob bound to the first output: the
result embedding is written in place into the initialization tensor. -/
theorem tsne_schema_enforces_inplace (inBlobs outBlobs : List String)
    (h : TSNESchema.verifies inBlobs outBlobs = true) (h2 : inBlobs.length = 2) :
    inBlobs.getD 1 defaultBlob = outBlobs.getD 0 defaultBlob := by
  simp only [OperatorSchema.verifies, TSNESchema, Bool.and_eq_true, decide_eq_true_eq,
    List.all_eq_true, List.mem_range] at h
  obtain ⟨⟨⟨hmin, hmax⟩, hout⟩, hall⟩ := h
  have h10 := hall 1 (by omega) 0 (by omega)
  simp [Prod.ext_iff] at h10
  simp only [List.getD_eq_getElem?_getD]
  exact h10

/-- Witness for C7: the schema accepts the binding (x, y) to inputs and (y)
to the output, and there the second input aliases the output. -/
theorem tsne_schema_enforces_inplace_witness :
    TSNESchema.verifies [nameX, nameY] [nameY] = true ∧
    [nameX, nameY].getD 1 defaultBlob = [nameY].getD 0 defaultBlob :=
  ⟨by decide, tsne_schema_enforces_inplace [nameX, nameY] [nameY] (by decide) (by rfl)⟩

/-- C8: in every schema-valid invocation the blob holding the input matrix X
is left untouched by `RunOnDevice`: the workspace after the invocation binds
the first input blob to exactly the tensor it held before (the schema
guarantees the first input never aliases the output, and the core reads X
read-only). -/
theorem tsne_input_blob_unchanged (op : TSNEOp) (inBlobs : List String)
    (outBlob : String) (ws : Workspace)
    (h : TSNESchema.verifies inBlobs [outBlob] = true) :
    (runOnWorkspace op inBlobs outBlob ws).2 (inBlobs.getD 0 defaultBlob) =
      ws (inBlobs.getD 0 defaultBlob) := by
  have hne : ¬ (inBlobs.getD 0 defaultBlob = outBlob) := by
    simp only [OperatorSchema.verifies, TSNESchema, Bool.and_eq_true, decide_eq_true_eq,
      List.all_eq_true, List.mem_range] at h
    obtain ⟨⟨⟨hmin, hmax⟩, hout⟩, hall⟩ := h
    have h00 := hall 0 (by omega) 0 (by simp)
    simp [Prod.ext_iff] at h00
    simp only [List.getD_eq_getElem?_getD]
    exact h00
  simp only [List.getD_eq_getElem?_getD] at hne
  simp only [runOnWorkspace]
  repeat' split
  all_goals simp [hne]

/-- Witness for C8: a concrete two-input invocation leaves the tensor under
the input blob x unchanged. -/
theorem tsne_input_blob_unchanged_witness :
    TSNESchema.verifies [nameX, nameY] [nameY] = true ∧
    (runOnWorkspace opSmall [nameX, nameY] nameY wsEx).2 nameX = wsEx nameX :=
  ⟨by decide, tsne_input_blob_unchanged opSmall [nameX, nameY] nameY wsEx (by decide)⟩

/-- C9: once the shape/type preconditions pass the invocation is never an
enforce failure, and whenever `RunOnDevice` returns at all it returns true:
no outcome of the computation can make it return false. -/
theorem tsne_returns_true (op : TSNEOp) (X : TensorCPU) (initArg : Option TensorCPU)
    (r : Bool) (Y : TensorCPU) (c : RunCall) :
    (specPrecondition op X initArg = true →
      (op.RunOnDevice X initArg).isEnforceFailed = false) ∧
    (op.RunOnDevice X initArg = RunOutcome.ok r Y c → r = true) := by
  constructor
  · intro hpre
    rw [runOnDevice_of_pre op X initArg hpre]
    exact callCore_not_enforce op X initArg
  · intro h
    rcases runOnDevice_cases op X initArg with ⟨msg, heq⟩ | heq
    · rw [heq] at h
      cases h
    · rw [heq] at h
      simp only [TSNEOp.callCore] at h
      split at h
      · cases h
      · obtain ⟨h1, h2, h3⟩ := RunOutcome.ok.inj h
        rw [← h1]

/-- Witness for C9: a concrete valid invocation passes its enforce checks
and returns true. -/
theorem tsne_returns_true_witness :
    (opSmall.RunOnDevice tenX none).isEnforceFailed = false ∧ true = true :=
  ⟨(tsne_returns_true opSmall tenX none true outEx callEx).1 (by decide),
   (tsne_returns_true opSmall tenX none true outEx callEx).2 (by rfl)⟩

/-- C10: the adapter validates only dims — construction succeeds for every
perplexity, theta, random_seed and max_iter value exactly when dims > 0 —
and whatever values were supplied are forwarded unchanged and unclamped to
the core call. -/
theorem tsne_no_range_validation (dims : Int) (p th : Rat) (rs mi : Int) :
    ((TSNEOp.make ⟨some dims, some p, some th, some rs, some mi⟩).isOk = true ↔
      0 < dims) ∧
    ∀ op X initArg c,
      TSNEOp.make ⟨some dims, some p, some th, some rs, some mi⟩ = Except.ok op →
      (op.RunOnDevice X initArg).callOf = some c →
      c.perplexity = p ∧ c.theta = th ∧ c.rand_seed = rs ∧ c.max_iter = mi := by
  constructor
  · simp only [TSNEOp.make]
    split
    · simp_all [Except.isOk, Except.toBool]
    · simp_all [Except.isOk, Except.toBool]
  · intro op X initArg c h1 h2
    have hc := callOf_eq op X initArg c h2
    subst hc
    simp only [TSNEOp.make] at h1
    split at h1
    · have hop := Except.ok.inj h1
      rw [← hop]
      exact ⟨rfl, rfl, rfl, rfl⟩
    · cases h1

/-- Witness for C10: construction succeeds with perplexity -3, theta 7
(outside [0,1]), random_seed -5 and max_iter -1, and the core receives
those very values. -/
theorem tsne_no_range_validation_witness :
    (TSNEOp.make dWild).isOk = true ∧
    (callWild.perplexity = -3 ∧ callWild.theta = 7 ∧ callWild.rand_seed = -5 ∧
      callWild.max_iter = -1) :=
  ⟨(tsne_no_range_validation 1 (-3) 7 (-5) (-1)).1.mpr (by decide),
   (tsne_no_range_validation 1 (-3) 7 (-5) (-1)).2 opWild tenX none callWild
     (by rfl) (by rfl)⟩

end TSNEVerify
